import Mathlib

/-!
Verification of the DRBD resynchronization progress estimator
(`src/drbd/drbd_proc.c`) against its natural-language specification.

The source computes with C `unsigned long` (64-bit on the LP64 targets the
file's own comments assume).  We embed machine words as `Nat` and insert an
explicit `% 2 ^ 64` exactly at the operations where wrap-around is reachable
for in-range (64-bit) inputs: the unsigned subtractions (`usub`) and the
ETA multiplication in `drbd_syncer_progress`.  In `drbd_get_syncer_progress`'s
non-error branch every intermediate provably stays below `2 ^ 64` for 64-bit
inputs (after `>> 10` resp. `>> 16`, the `* 1000` product is at most
`(2 ^ 54 - 1) * 1000 < 2 ^ 64`), so the plain-`Nat` translation coincides
with the machine computation there.

Constants that live in headers outside the excerpt (`drbd_int.h`,
kernel headers) are modelled from the spec and marked as such.
-/

/-- C `UINT_MAX`, the largest 32-bit unsigned value (line 105 of the source). -/
def UINT_MAX : Nat := 2 ^ 32 - 1

/-- Word size of the C `unsigned long` arithmetic of the source (LP64). -/
def WORD : Nat := 2 ^ 64

/-- C unsigned-long subtraction: `a - b` computed modulo `2 ^ 64`.
Agrees with `a - b` when `b ≤ a < WORD` and wraps around otherwise. -/
def usub (a b : Nat) : Nat := (a + WORD - b % WORD) % WORD

/-- Modelled from the spec: the ring-buffer capacity `N` of `SampleHistory`
(`DRBD_SYNC_MARKS`, declared in `drbd_int.h` which is not part of the
excerpt; the spec's reference value is 8). -/
def DRBD_SYNC_MARKS : Nat := 8

/-- Modelled from the spec: the tick interval between samples in seconds
(`DRBD_SYNC_MARK_STEP`, declared in `drbd_int.h` which is not part of the
excerpt; the spec's short window of ~18 s over `N - 2 = 6` marks gives a
3-second cadence). -/
def DRBD_SYNC_MARK_STEP : Nat := 3

/-- Modelled from the spec: kernel jiffies per second (`HZ`).  The claims
proved below hold for any positive value; we fix the common 100. -/
def HZ : Nat := 100

/-- Modelled from the spec: conversion from work units (bitmap bits, one
4 KiB block each) to KiB (`Bit2KB`, declared outside the excerpt).  The
spec treats unit-to-byte conversion as an external concern; one bit is a
4 KiB block, so the factor is 4. -/
def Bit2KB (bits : Nat) : Nat := bits * 4

/-- Replication states of the peer device that the excerpt inspects. -/
inductive ReplState where
  | L_STANDALONE
  | L_SYNC_SOURCE
  | L_SYNC_TARGET
  | L_VERIFY_S
  | L_VERIFY_T
deriving DecidableEq

/-- `repl_state == L_VERIFY_S || repl_state == L_VERIFY_T`
(lines 78 and 140 of the source). -/
def isVerifyState : ReplState → Bool
  | ReplState.L_VERIFY_S => true
  | ReplState.L_VERIFY_T => true
  | _ => false

/-- The fields of `struct drbd_device` (plus the two external queries
`drbd_bm_total_weight` and `drbd_bm_bits`, which the spec says to treat
as opaque inputs) that the estimator reads.  All counters are C
`unsigned long` values, embedded as `Nat`. -/
structure DrbdDevice where
  rs_total : Nat
  rs_failed : Nat
  ov_left : Nat
  rs_last_mark : Nat
  rs_mark_time : Nat → Nat
  rs_mark_left : Nat → Nat
  rs_start : Nat
  rs_paused : Nat
  c_sync_rate : Nat
  bm_resync_fo : Nat
  repl_state : ReplState
  bm_total_weight : Nat
  bm_bits : Nat

/-- Lines 78-81: remaining work units.  Verify operations track `ov_left`
directly; sync operations derive it as `drbd_bm_total_weight(device) -
device->rs_failed` (an unsigned subtraction). -/
def bitsLeft (d : DrbdDevice) : Nat :=
  if isVerifyState d.repl_state then d.ov_left
  else usub d.bm_total_weight d.rs_failed

/-- Line 105: `shift = device->rs_total > UINT_MAX ? 16 : 10`. -/
def perMilShift (rs_total : Nat) : Nat := if UINT_MAX < rs_total then 16 else 10

/-- Lines 106-108, the non-error branch of `drbd_get_syncer_progress`:
`left = bits_left >> shift`, `total = 1 + (rs_total >> shift)`,
`tmp = 1000 - left * 1000 / total`.  For 64-bit inputs no intermediate
reaches `2 ^ 64` here (see the file comment), so plain `Nat` arithmetic
is the machine arithmetic. -/
def perMilCore (bits_left rs_total : Nat) : Nat :=
  1000 - (bits_left >>> perMilShift rs_total) * 1000 /
    (1 + (rs_total >>> perMilShift rs_total))

/-- Lines 84-110: the per-mille computation including the
`*bits_left > device->rs_total` diagnostic branch, which reports 0. -/
def perMilDone (bits_left rs_total : Nat) : Nat :=
  if rs_total < bits_left then 0 else perMilCore bits_left rs_total

/-- Output of `drbd_get_syncer_progress` (its two out-parameters), plus
`warned`: whether the `drbd_warn` diagnostic branch for
`RemainingExceedsTotal` was taken. -/
structure GetProgressOut where
  bits_left : Nat
  per_mil_done : Nat
  warned : Bool

/-- Lines 65-111: `drbd_get_syncer_progress`. -/
def drbd_get_syncer_progress (d : DrbdDevice) : GetProgressOut :=
  { bits_left := bitsLeft d
    per_mil_done := perMilDone (bitsLeft d) d.rs_total
    warned := decide (d.rs_total < bitsLeft d) }

/-- Shared bound: with the `+ 1` guard in the divisor, the subtracted
quotient of lines 107-108 stays below 1000 whenever `L ≤ T`. -/
lemma quot_lt_1000 (L T : Nat) (h : L ≤ T) : L * 1000 / (1 + T) < 1000 := by
  have h0 : 0 < 1 + T := by omega
  rw [Nat.div_lt_iff_lt_mul h0]
  omega

/-- Right shifts preserve `≤`. -/
lemma shiftRight_le_shiftRight (a b s : Nat) (h : a ≤ b) : a >>> s ≤ b >>> s := by
  simp only [Nat.shiftRight_eq_div_pow]
  exact Nat.div_le_div_right h

/-- Shared bound for the non-error branch: the result lies in `[1, 1000]`. -/
lemma perMilCore_bounds (bl t : Nat) (h : bl ≤ t) :
    1 ≤ perMilCore bl t ∧ perMilCore bl t ≤ 1000 := by
  have hs : bl >>> perMilShift t ≤ t >>> perMilShift t :=
    shiftRight_le_shiftRight bl t _ h
  have hq := quot_lt_1000 (bl >>> perMilShift t) (t >>> perMilShift t) hs
  unfold perMilCore
  revert hq
  generalize (bl >>> perMilShift t) * 1000 / (1 + t >>> perMilShift t) = q
  intro hq
  omega

/-- C1 (amended): for every `remaining ≤ total` with `total > 0`, the
non-error branch's per-mille result lies in `[0, 1000]` (indeed in
`[1, 1000]`), equals 1000 when `remaining = 0`, and when
`remaining = total` it is at least 1 — never 0, because the `+ 1`
division guard keeps the subtracted quotient strictly below 1000. -/
theorem perMilDone_bounds (bl t : Nat) (h1 : bl ≤ t) (h2 : 0 < t) :
    1 ≤ perMilDone bl t ∧ perMilDone bl t ≤ 1000 ∧
      perMilDone 0 t = 1000 ∧ 1 ≤ perMilDone t t := by
  have hb := perMilCore_bounds bl t h1
  have hb0 : perMilDone 0 t = 1000 := by
    unfold perMilDone perMilCore
    simp [Nat.zero_shiftRight]
  have hbt := perMilCore_bounds t t (le_refl t)
  unfold perMilDone
  simp only [Nat.not_lt.mpr h1, if_neg (by omega : ¬ t < bl),
    if_neg (by omega : ¬ t < t)]
  refine ⟨hb.1, hb.2, ?_, hbt.1⟩
  simpa [perMilDone] using hb0

/-- C1 witness: the bounds theorem instantiated at `remaining = 3`,
`total = 5`. -/
theorem perMilDone_bounds_witness :
    1 ≤ perMilDone 3 5 ∧ perMilDone 3 5 ≤ 1000 ∧
      perMilDone 0 5 = 1000 ∧ 1 ≤ perMilDone 5 5 :=
  perMilDone_bounds 3 5 (by decide) (by decide)

/-- C1 counterexample: at `remaining = total = 1` (a pair satisfying the
claim's hypotheses `remaining ≤ total`, `total > 0`) the code returns
1000, not the 0 the claim demands at `remaining = total`. -/
theorem perMilDone_total_not_zero :
    perMilDone 1 1 = 1000 ∧ perMilDone 1 1 ≠ 0 := by
  constructor <;> decide

/-- C9: the per-mille output is 0 exactly when the remaining count exceeds
the total (the `RemainingExceedsTotal` branch); equivalently, on every
input with `remaining ≤ total` the output is at least 1, so 0 is an
unambiguous error marker. -/
theorem perMilDone_zero_iff (bl t : Nat) (ht : 0 < t) :
    (perMilDone bl t = 0 ↔ t < bl) ∧ (1 ≤ perMilDone bl t ∨ t < bl) := by
  by_cases h : t < bl
  · unfold perMilDone
    simp [h]
  · have hb := perMilCore_bounds bl t (by omega)
    unfold perMilDone
    simp only [if_neg h]
    constructor
    · constructor
      · intro h0; omega
      · intro h'; exact absurd h' h
    · left; exact hb.1

/-- C9 witness: the error-marker characterisation at `remaining = 3`,
`total = 5`. -/
theorem perMilDone_zero_iff_witness :
    (perMilDone 3 5 = 0 ↔ 5 < 3) ∧ (1 ≤ perMilDone 3 5 ∨ 5 < 3) :=
  perMilDone_zero_iff 3 5 (by decide)

/-- Lines 106-108 evaluated in `w`-bit machine arithmetic: every
intermediate value is reduced modulo `2 ^ w`, and the final subtraction is
the wrapping unsigned one.  Comparing it with the exact `perMilCore`
expresses "no intermediate overflows a `w`-bit word". -/
def perMilCoreW (w bits_left rs_total : Nat) : Nat :=
  (1000 + 2 ^ w -
      ((bits_left >>> perMilShift rs_total) % 2 ^ w) * 1000 % 2 ^ w /
        ((1 + (rs_total >>> perMilShift rs_total) % 2 ^ w) % 2 ^ w)) % 2 ^ w

/-- C3: for every `total ≤ 2 ^ 38` and `remaining ≤ total`, the per-mille
core computation performed in 32-bit arithmetic (shift by 16 when `total`
exceeds the 32-bit range, else by 10, then `* 1000` and divide) equals the
exact integer computation: no intermediate overflows 32 bits. -/
theorem perMil_32bit_exact (bl t : Nat) (ht : t ≤ 2 ^ 38) (hbl : bl ≤ t) :
    perMilCoreW 32 bl t = perMilCore bl t := by
  have hs : bl >>> perMilShift t ≤ t >>> perMilShift t :=
    shiftRight_le_shiftRight bl t _ hbl
  have htb : t >>> perMilShift t ≤ 4194304 := by
    unfold perMilShift
    split
    · rw [Nat.shiftRight_eq_div_pow]
      calc t / 2 ^ 16 ≤ 2 ^ 38 / 2 ^ 16 := Nat.div_le_div_right ht
        _ = 4194304 := by norm_num
    · rename_i hU
      rw [Nat.shiftRight_eq_div_pow]
      have ht' : t ≤ 4294967295 := by
        unfold UINT_MAX at hU; omega
      calc t / 2 ^ 10 ≤ 4294967295 / 2 ^ 10 := Nat.div_le_div_right ht'
        _ ≤ 4194304 := by norm_num
  have hq := quot_lt_1000 (bl >>> perMilShift t) (t >>> perMilShift t) hs
  unfold perMilCoreW perMilCore
  have h1 : (bl >>> perMilShift t) % 2 ^ 32 = bl >>> perMilShift t :=
    Nat.mod_eq_of_lt (by omega)
  have h2 : (t >>> perMilShift t) % 2 ^ 32 = t >>> perMilShift t :=
    Nat.mod_eq_of_lt (by omega)
  rw [h1, h2]
  have h4 : (bl >>> perMilShift t) * 1000 % 2 ^ 32 = (bl >>> perMilShift t) * 1000 :=
    Nat.mod_eq_of_lt (by omega)
  have h3 : (1 + t >>> perMilShift t) % 2 ^ 32 = 1 + t >>> perMilShift t :=
    Nat.mod_eq_of_lt (by omega)
  rw [h3, h4]
  revert hq
  generalize (bl >>> perMilShift t) * 1000 / (1 + t >>> perMilShift t) = q
  intro hq
  have hsplit : 1000 + 2 ^ 32 - q = 2 ^ 32 + (1000 - q) := by omega
  rw [hsplit, Nat.add_mod_left]
  exact Nat.mod_eq_of_lt (by omega)

/-- C3 witness: exactness at the extreme point `total = 2 ^ 38`,
`remaining = 2 ^ 37`. -/
theorem perMil_32bit_exact_witness :
    perMilCoreW 32 (2 ^ 37) (2 ^ 38) = perMilCore (2 ^ 37) (2 ^ 38) :=
  perMil_32bit_exact (2 ^ 37) (2 ^ 38) (by norm_num) (by norm_num)

/-- Lines 176-177 / 193-194 / 205-206: `if (!dt) dt++;` — clamp an elapsed
time to a minimum of 1 before dividing by it. -/
def clamp1 (n : Nat) : Nat := if n = 0 then 1 else n

/-- The per-window speed of lines 184, 196 and 208: completed units
divided by elapsed seconds (`db/dt`, integer division). -/
def speedOf (delta_units elapsed : Nat) : Nat := delta_units / elapsed

/-- Lines 130-138: the progress bar.  `x = res/50`, then the loop
`for (i = 1; i < x; i++)` emits `max(x-1, 0)` cells of '=', one '>' marker,
and `y = 20 - x` dots (`for (i = 0; i < y; i++)`, which runs 0 times when
`y ≤ 0`; `Nat` truncated subtraction models both loop bounds exactly). -/
def progressBarCells (res : Nat) : List Char :=
  List.replicate (res / 50 - 1) '=' ++ ['>'] ++ List.replicate (20 - res / 50) '.'

/-- Number of filled cells of a rendered bar: the '=' run plus the '>'
transition marker (the spec's own notion of "filled"). -/
def filledCells (l : List Char) : Nat := l.count '=' + l.count '>'

/-- The values `drbd_syncer_progress` computes (lines 120-237): remaining
units and per-mille from `drbd_get_syncer_progress`, the rendered bar, the
short-window elapsed/delta/ETA/speed, the stall flag, the optional
very-short window (`proc_details >= 1`), the long-term window, and the
optional sector-position percentage. -/
structure SyncerProgressOut where
  rs_left : Nat
  res : Nat
  bar : List Char
  dt : Nat
  stalled : Bool
  db : Nat
  rt : Nat
  dbdt : Nat
  vshort : Option (Nat × Nat × Nat)
  dt_long : Nat
  db_long : Nat
  dbdt_long : Nat
  sector : Option (Nat × Nat)

/-- Lines 120-237: `drbd_syncer_progress`.  `jiffies` is the kernel clock
read; `pd` is the global `proc_details`.  All subtractions on clock and
counter values are the wrapping `usub`; the ETA product of line 179 is
reduced modulo `2 ^ 64` exactly as the `unsigned long` multiplication is. -/
def drbd_syncer_progress (d : DrbdDevice) (jiffies pd : Nat) : SyncerProgressOut :=
  let rs_left := bitsLeft d
  let res := perMilDone rs_left d.rs_total
  let i := (d.rs_last_mark + 2) % DRBD_SYNC_MARKS
  let dt0 := usub jiffies (d.rs_mark_time i) / HZ
  let stalled := decide (DRBD_SYNC_MARK_STEP * DRBD_SYNC_MARKS < dt0)
  let dt := clamp1 dt0
  let db := usub (d.rs_mark_left i) rs_left
  let rt := dt * (rs_left / (db / 100 + 1)) % WORD / 100
  let dbdt := Bit2KB (speedOf db dt)
  let vshort :=
    if 1 ≤ pd then
      let i2 := (d.rs_last_mark + (DRBD_SYNC_MARKS - 1)) % DRBD_SYNC_MARKS
      let dt2 := clamp1 (usub jiffies (d.rs_mark_time i2) / HZ)
      let db2 := usub (d.rs_mark_left i2) rs_left
      some (dt2, db2, Bit2KB (speedOf db2 dt2))
    else none
  let dt3 := clamp1 (usub (usub jiffies d.rs_start) d.rs_paused / HZ)
  let db3 := usub d.rs_total rs_left
  let dbdt3 := Bit2KB (speedOf db3 dt3)
  let sector :=
    if 1 ≤ pd then
      let bit_pos := if isVerifyState d.repl_state then usub d.bm_bits d.ov_left
                     else d.bm_resync_fo
      some (bit_pos, bit_pos / (d.bm_bits / 100 + 1))
    else none
  { rs_left := rs_left, res := res, bar := progressBarCells res, dt := dt,
    stalled := stalled, db := db, rt := rt, dbdt := dbdt, vshort := vshort,
    dt_long := dt3, db_long := db3, dbdt_long := dbdt3, sector := sector }

/-- C4: the stall flag is true exactly when the elapsed time (in seconds)
since the short-window mark — the sample at index `rs_last_mark + 2`
modulo `DRBD_SYNC_MARKS` — exceeds `DRBD_SYNC_MARKS * DRBD_SYNC_MARK_STEP`
seconds; otherwise it is false. -/
theorem syncer_stalled_iff (d : DrbdDevice) (jiffies pd : Nat) :
    (drbd_syncer_progress d jiffies pd).stalled = true ↔
      DRBD_SYNC_MARKS * DRBD_SYNC_MARK_STEP <
        usub jiffies (d.rs_mark_time ((d.rs_last_mark + 2) % DRBD_SYNC_MARKS)) / HZ := by
  simp only [drbd_syncer_progress, decide_eq_true_eq]
  rw [Nat.mul_comm]

/-- The minimum-1 clamp makes every elapsed time positive. -/
lemma one_le_clamp1 (n : Nat) : 1 ≤ clamp1 n := by
  unfold clamp1; split <;> omega

/-- C5 (amended): the estimated remaining time is the two-stage expression
`(dt * (rs_left / (db/100 + 1))) / 100` with all divisions integer floor
divisions, provided the product `dt * (rs_left / (db/100 + 1))` fits below
`2 ^ 64`; the multiplication itself is performed in 64-bit unsigned
arithmetic, so for larger products the wrapped product is divided instead.
The clamped short-window elapsed time is always at least 1. -/
theorem syncer_rt_two_stage (d : DrbdDevice) (jiffies pd : Nat)
    (h : (drbd_syncer_progress d jiffies pd).dt *
        ((drbd_syncer_progress d jiffies pd).rs_left /
          ((drbd_syncer_progress d jiffies pd).db / 100 + 1)) < WORD) :
    (drbd_syncer_progress d jiffies pd).rt =
      (drbd_syncer_progress d jiffies pd).dt *
        ((drbd_syncer_progress d jiffies pd).rs_left /
          ((drbd_syncer_progress d jiffies pd).db / 100 + 1)) / 100 ∧
      1 ≤ (drbd_syncer_progress d jiffies pd).dt := by
  simp only [drbd_syncer_progress] at h ⊢
  exact ⟨by rw [Nat.mod_eq_of_lt h], one_le_clamp1 _⟩

/-- Concrete device for the C5 witness: `rs_left = 500`, short-window mark
at 600 units remaining taken at jiffy 0. -/
def dev5w : DrbdDevice :=
  { rs_total := 1000, rs_failed := 0, ov_left := 0, rs_last_mark := 0,
    rs_mark_time := fun _ => 0, rs_mark_left := fun _ => 600,
    rs_start := 0, rs_paused := 0, c_sync_rate := 0, bm_resync_fo := 0,
    repl_state := ReplState.L_SYNC_TARGET, bm_total_weight := 500, bm_bits := 1000 }

/-- C5 witness: the two-stage ETA identity at a concrete in-range input
(`dt = 3`, `rs_left = 500`, `db = 100`). -/
theorem syncer_rt_two_stage_witness :
    (drbd_syncer_progress dev5w 300 0).rt =
      (drbd_syncer_progress dev5w 300 0).dt *
        ((drbd_syncer_progress dev5w 300 0).rs_left /
          ((drbd_syncer_progress dev5w 300 0).db / 100 + 1)) / 100 ∧
      1 ≤ (drbd_syncer_progress dev5w 300 0).dt :=
  syncer_rt_two_stage dev5w 300 0 (by decide)

/-- Concrete device for the C5 counterexample: an extreme but 64-bit
representable state (`rs_left = 10^18`, mark taken at jiffy 0 and read at
jiffy `10^19`, so `dt = 10^17` and `db = 0`). -/
def cexDev5 : DrbdDevice :=
  { rs_total := 10 ^ 18, rs_failed := 0, ov_left := 0, rs_last_mark := 0,
    rs_mark_time := fun _ => 0, rs_mark_left := fun _ => 10 ^ 18,
    rs_start := 0, rs_paused := 0, c_sync_rate := 0, bm_resync_fo := 0,
    repl_state := ReplState.L_SYNC_TARGET, bm_total_weight := 10 ^ 18,
    bm_bits := 1 }

/-- C5 counterexample: at this input the short-window elapsed time is
`≥ 1` as the claim requires, yet the computed remaining time differs from
the exact two-stage expression, because the `unsigned long` product
`dt * (rs_left / (db/100 + 1)) = 10^35` wraps modulo `2 ^ 64`. -/
theorem syncer_rt_wraps :
    1 ≤ (drbd_syncer_progress cexDev5 (10 ^ 19) 0).dt ∧
    (drbd_syncer_progress cexDev5 (10 ^ 19) 0).rt ≠
      (drbd_syncer_progress cexDev5 (10 ^ 19) 0).dt *
        ((drbd_syncer_progress cexDev5 (10 ^ 19) 0).rs_left /
          ((drbd_syncer_progress cexDev5 (10 ^ 19) 0).db / 100 + 1)) / 100 := by
  constructor <;> decide

/-- C6: the per-window speed `delta_units / elapsed` is monotonically
non-decreasing in the completed units for a fixed elapsed time, and
monotonically non-increasing in the elapsed time (for elapsed ≥ 1) for a
fixed number of completed units. -/
theorem speed_monotone (d1 d2 e dd e1 e2 : Nat) (hd : d1 ≤ d2) (he1 : 1 ≤ e1)
    (he : e1 ≤ e2) :
    speedOf d1 e ≤ speedOf d2 e ∧ speedOf dd e2 ≤ speedOf dd e1 := by
  constructor
  · exact Nat.div_le_div_right hd
  · exact Nat.div_le_div_left he he1

/-- C6 witness: monotonicity at `delta 2 ≤ 5` over `elapsed = 3`, and
`elapsed 1 ≤ 4` under `delta = 10`. -/
theorem speed_monotone_witness :
    speedOf 2 3 ≤ speedOf 5 3 ∧ speedOf 10 4 ≤ speedOf 10 1 :=
  speed_monotone 2 5 3 10 1 4 (by decide) (by decide) (by decide)

/-- Concrete device for C10: work was added since the mark, so the current
remaining (200) exceeds the mark's recorded remaining (100). -/
def cexDev10 : DrbdDevice :=
  { rs_total := 1000, rs_failed := 0, ov_left := 0, rs_last_mark := 0,
    rs_mark_time := fun _ => 0, rs_mark_left := fun _ => 100,
    rs_start := 0, rs_paused := 0, c_sync_rate := 0, bm_resync_fo := 0,
    repl_state := ReplState.L_SYNC_TARGET, bm_total_weight := 200, bm_bits := 1000 }

/-- C10: when the current remaining work (200) exceeds the remaining value
recorded in the short-window sample (100), the delta
`db = rs_mark_left[i] - rs_left` wraps modulo `2 ^ 64` instead of clamping
to 0: `db = 2^64 - 100`, the reported speed is derived from that enormous
delta (`Bit2KB` of `db/dt`, not 0), and the ETA collapses to 0 because the
wrapped delta dwarfs the remaining count. -/
theorem db_wraparound_concrete :
    (drbd_syncer_progress cexDev10 100 0).rs_left = 200 ∧
    cexDev10.rs_mark_left ((cexDev10.rs_last_mark + 2) % DRBD_SYNC_MARKS) = 100 ∧
    (drbd_syncer_progress cexDev10 100 0).db = 2 ^ 64 - 100 ∧
    (drbd_syncer_progress cexDev10 100 0).db ≠ 0 ∧
    (drbd_syncer_progress cexDev10 100 0).dbdt = Bit2KB (2 ^ 64 - 100) ∧
    (drbd_syncer_progress cexDev10 100 0).rt = 0 := by
  refine ⟨by decide, by decide, by decide, by decide, by decide, by decide⟩

/-- Bar geometry for each reachable filled-cell count `x = res/50 ≥ 1`:
exactly 20 characters, `x` of them filled. -/
lemma progressBar_x (x : Nat) (h1 : 1 ≤ x) (h2 : x ≤ 20) :
    (List.replicate (x - 1) '=' ++ ['>'] ++ List.replicate (20 - x) '.').length = 20 ∧
    filledCells (List.replicate (x - 1) '=' ++ ['>'] ++ List.replicate (20 - x) '.') = x := by
  interval_cases x <;> exact ⟨by decide, by decide⟩

/-- C8 (amended): for `50 ≤ p ≤ 1000` the rendered bar is exactly 20
characters with exactly `p/50` filled cells (the '=' run plus the '>'
marker) — in particular all 20 at `p = 1000` and 10 at `p = 500`; but for
`p < 50` (where `p/50 = 0`) the bar is 21 characters and the marker is its
single filled cell, with zero '=' cells before the marker. -/
theorem progressBar_spec (p : Nat) :
    (50 ≤ p → p ≤ 1000 →
      (progressBarCells p).length = 20 ∧ filledCells (progressBarCells p) = p / 50) ∧
    (p < 50 →
      (progressBarCells p).length = 21 ∧ filledCells (progressBarCells p) = 1) := by
  constructor
  · intro h1 h2
    have hx1 : 1 ≤ p / 50 := (Nat.one_le_div_iff (by norm_num)).mpr h1
    have hx2 : p / 50 ≤ 20 := by
      have hd : p / 50 ≤ 1000 / 50 := Nat.div_le_div_right h2
      simpa using hd
    exact progressBar_x (p / 50) hx1 hx2
  · intro h
    have hx : p / 50 = 0 := Nat.div_eq_of_lt h
    unfold progressBarCells
    rw [hx]
    exact ⟨by decide, by decide⟩

/-- C8 witness: at `p = 500` the bar is 20 characters with exactly 10
filled cells. -/
theorem progressBar_spec_witness :
    (progressBarCells 500).length = 20 ∧ filledCells (progressBarCells 500) = 500 / 50 :=
  (progressBar_spec 500).1 (by decide) (by decide)

/-- C8 counterexample: at `p = 0` (a per-mille value in the claim's range
0..1000) the bar is 21 characters — not the claimed fixed width 20 — and
has one filled cell (the '>' marker), not `p/50 = 0`. -/
theorem progressBar_zero_not_twenty :
    (progressBarCells 0).length = 21 ∧ filledCells (progressBarCells 0) = 1 ∧
      ¬ ((progressBarCells 0).length = 20 ∧ filledCells (progressBarCells 0) = 0 / 50) := by
  refine ⟨by decide, by decide, by decide⟩

/-- Guarded division: `none` on a zero divisor, otherwise the quotient. -/
def cdiv (a b : Nat) : Option Nat := if b = 0 then none else some (a / b)

/-- Guarded remainder: `none` on a zero divisor, otherwise the remainder. -/
def cmod (a b : Nat) : Option Nat := if b = 0 then none else some (a % b)

lemma cdiv_eq (a b : Nat) (h : b ≠ 0) : cdiv a b = some (a / b) := by
  simp [cdiv, h]

lemma cmod_eq (a b : Nat) (h : b ≠ 0) : cmod a b = some (a % b) := by
  simp [cmod, h]

lemma clamp1_ne_zero (n : Nat) : clamp1 n ≠ 0 := by
  unfold clamp1; split <;> omega

lemma cdiv_clamp1 (a b : Nat) : cdiv a (clamp1 b) = some (a / clamp1 b) :=
  cdiv_eq a (clamp1 b) (clamp1_ne_zero b)

lemma cdiv_add_one (a b : Nat) : cdiv a (b + 1) = some (a / (b + 1)) :=
  cdiv_eq a (b + 1) (by omega)

/-- Lines 84-110 with the single division guarded: the error branch of the
division is reached only on a zero divisor, which the `+ 1` guard rules
out. -/
def perMilDoneChecked (bits_left rs_total : Nat) : Option Nat :=
  if rs_total < bits_left then some 0
  else
    (cdiv ((bits_left >>> perMilShift rs_total) * 1000)
        (1 + (rs_total >>> perMilShift rs_total))).map (fun q => 1000 - q)

/-- The checked per-mille computation never hits a zero divisor and agrees
with the unguarded one. -/
lemma perMilDoneChecked_eq (bl t : Nat) :
    perMilDoneChecked bl t = some (perMilDone bl t) := by
  unfold perMilDoneChecked perMilDone perMilCore
  by_cases h : t < bl
  · simp [h]
  · have hnz : 1 + (t >>> perMilShift t) ≠ 0 :=
      Nat.pos_iff_ne_zero.mp (Nat.lt_of_lt_of_le Nat.zero_lt_one (Nat.le_add_right 1 _))
    simp [h, cdiv_eq _ _ hnz]

/-- Lines 50-62, `seq_printf_with_thousands_grouping`, with every division
and modulo guarded; only the divisor structure matters here, so the
rendered digits are dropped. -/
def thousandsChecked (v : Nat) : Option Unit :=
  if 1000000 ≤ v then do
    let _a ← cdiv v 1000000
    let v2 ← cmod v 1000000
    let _b ← cdiv v2 1000
    let _c ← cmod v2 1000
    some ()
  else if 1000 ≤ v then do
    let _a ← cdiv v 1000
    let _b ← cmod v 1000
    some ()
  else some ()

lemma thousandsChecked_eq (v : Nat) : thousandsChecked v = some () := by
  unfold thousandsChecked
  split
  · rfl
  · split <;> rfl


/-- The finish-time display divisions of lines 181-182:
`rt/3600`, `(rt%3600)/60`, `rt%60`. -/
def finishChecked (rt : Nat) : Option Unit := do
  let _h ← cdiv rt 3600
  let r ← cmod rt 3600
  let _m ← cdiv r 60
  let _s ← cmod rt 60
  some ()

/-- Lines 171-187, the short (~18 s) window, every `/` and `%` guarded:
mark index, elapsed seconds, stall check, min-1 clamp, delta, the
two-stage ETA, the finish-time display and the speed with its
thousands-grouped rendering. -/
def shortWindowChecked (d : DrbdDevice) (jiffies rs_left : Nat) :
    Option (Nat × Bool × Nat × Nat × Nat) := do
  let i ← cmod (d.rs_last_mark + 2) DRBD_SYNC_MARKS
  let dt0 ← cdiv (usub jiffies (d.rs_mark_time i)) HZ
  let stalled := decide (DRBD_SYNC_MARK_STEP * DRBD_SYNC_MARKS < dt0)
  let dt := clamp1 dt0
  let db := usub (d.rs_mark_left i) rs_left
  let q100 ← cdiv db 100
  let ratio ← cdiv rs_left (q100 + 1)
  let rt ← cdiv (dt * ratio % WORD) 100
  let _f ← finishChecked rt
  let sdb ← cdiv db dt
  let _g ← thousandsChecked (Bit2KB sdb)
  some (dt, stalled, db, rt, Bit2KB sdb)

/-- Lines 189-199, the very-short (~3 s) window (`proc_details >= 1`). -/
def vshortChecked (d : DrbdDevice) (jiffies rs_left : Nat) :
    Option (Nat × Nat × Nat) := do
  let i2 ← cmod (d.rs_last_mark + (DRBD_SYNC_MARKS - 1)) DRBD_SYNC_MARKS
  let dt20 ← cdiv (usub jiffies (d.rs_mark_time i2)) HZ
  let dt2 := clamp1 dt20
  let db2 := usub (d.rs_mark_left i2) rs_left
  let s2 ← cdiv db2 dt2
  let _g2 ← thousandsChecked (Bit2KB s2)
  some (dt2, db2, Bit2KB s2)

/-- Lines 201-210, the long-term window with paused time subtracted. -/
def longWindowChecked (d : DrbdDevice) (jiffies rs_left : Nat) :
    Option (Nat × Nat × Nat) := do
  let dt30 ← cdiv (usub (usub jiffies d.rs_start) d.rs_paused) HZ
  let dt3 := clamp1 dt30
  let db3 := usub d.rs_total rs_left
  let s3 ← cdiv db3 dt3
  let _g3 ← thousandsChecked (Bit2KB s3)
  some (dt3, db3, Bit2KB s3)

/-- Lines 219-236, the sector-position block (`proc_details >= 1`), with
its `bit_pos / (bm_bits/100 + 1)` division guarded. -/
def sectorChecked (d : DrbdDevice) : Option (Nat × Nat) := do
  let bit_pos := if isVerifyState d.repl_state then usub d.bm_bits d.ov_left
                 else d.bm_resync_fo
  let h100 ← cdiv d.bm_bits 100
  let spct ← cdiv bit_pos (h100 + 1)
  some (bit_pos, spct)

/-- Lines 130-144, the bar and percentage display divisions:
`res/50`, `res/10`, `res%10`. -/
def barChecked (res : Nat) : Option (List Char) := do
  let x ← cdiv res 50
  let _pi ← cdiv res 10
  let _pf ← cmod res 10
  some (List.replicate (x - 1) '=' ++ ['>'] ++ List.replicate (20 - x) '.')

/-- Lines 120-237 with every `/` and `%` guarded, including the
display-only divisions.  Returns `none` iff some division in the
rendering path has a zero divisor. -/
def drbd_syncer_progress_checked (d : DrbdDevice) (jiffies pd : Nat) :
    Option SyncerProgressOut := do
  let rs_left := bitsLeft d
  let res ← perMilDoneChecked rs_left d.rs_total
  let bar ← barChecked res
  let sw ← shortWindowChecked d jiffies rs_left
  let vshort ← if 1 ≤ pd then (vshortChecked d jiffies rs_left).map some
               else some none
  let lw ← longWindowChecked d jiffies rs_left
  let _g4 ←
    if d.repl_state = ReplState.L_SYNC_TARGET ∨ d.repl_state = ReplState.L_VERIFY_S
    then thousandsChecked d.c_sync_rate else some ()
  let sector ← if 1 ≤ pd then (sectorChecked d).map some else some none
  some { rs_left := rs_left, res := res, bar := bar, dt := sw.1,
         stalled := sw.2.1, db := sw.2.2.1, rt := sw.2.2.2.1,
         dbdt := sw.2.2.2.2, vshort := vshort, dt_long := lw.1,
         db_long := lw.2.1, dbdt_long := lw.2.2, sector := sector }

lemma finishChecked_eq (rt : Nat) : finishChecked rt = some () := rfl

lemma barChecked_eq (res : Nat) : barChecked res = some (progressBarCells res) := rfl

lemma sectorChecked_eq (d : DrbdDevice) :
    sectorChecked d =
      some (let bit_pos := if isVerifyState d.repl_state then usub d.bm_bits d.ov_left
                           else d.bm_resync_fo
            (bit_pos, bit_pos / (d.bm_bits / 100 + 1))) := rfl

lemma shortWindowChecked_eq (d : DrbdDevice) (jiffies rs_left : Nat) :
    shortWindowChecked d jiffies rs_left =
      some (let i := (d.rs_last_mark + 2) % DRBD_SYNC_MARKS
            let dt0 := usub jiffies (d.rs_mark_time i) / HZ
            let dt := clamp1 dt0
            let db := usub (d.rs_mark_left i) rs_left
            (dt, decide (DRBD_SYNC_MARK_STEP * DRBD_SYNC_MARKS < dt0), db,
             dt * (rs_left / (db / 100 + 1)) % WORD / 100,
             Bit2KB (speedOf db dt))) := by
  simp only [shortWindowChecked, cdiv_clamp1, thousandsChecked_eq, speedOf]
  rfl

lemma vshortChecked_eq (d : DrbdDevice) (jiffies rs_left : Nat) :
    vshortChecked d jiffies rs_left =
      some (let i2 := (d.rs_last_mark + (DRBD_SYNC_MARKS - 1)) % DRBD_SYNC_MARKS
            let dt2 := clamp1 (usub jiffies (d.rs_mark_time i2) / HZ)
            let db2 := usub (d.rs_mark_left i2) rs_left
            (dt2, db2, Bit2KB (speedOf db2 dt2))) := by
  simp only [vshortChecked, cdiv_clamp1, thousandsChecked_eq, speedOf]
  rfl

lemma longWindowChecked_eq (d : DrbdDevice) (jiffies rs_left : Nat) :
    longWindowChecked d jiffies rs_left =
      some (let dt3 := clamp1 (usub (usub jiffies d.rs_start) d.rs_paused / HZ)
            let db3 := usub d.rs_total rs_left
            (dt3, db3, Bit2KB (speedOf db3 dt3))) := by
  simp only [longWindowChecked, cdiv_clamp1, thousandsChecked_eq, speedOf]
  rfl

/-- C7: under the precondition `total > 0` (in fact unconditionally), no
division or modulo anywhere in the estimator has a zero divisor: the
fully guarded evaluation succeeds and agrees with the unguarded one. -/
theorem syncer_progress_no_div_by_zero (d : DrbdDevice) (jiffies pd : Nat)
    (h : 0 < d.rs_total) :
    drbd_syncer_progress_checked d jiffies pd =
      some (drbd_syncer_progress d jiffies pd) := by
  by_cases hpd : 1 ≤ pd <;>
    simp [drbd_syncer_progress_checked, drbd_syncer_progress,
      perMilDoneChecked_eq, barChecked_eq, shortWindowChecked_eq,
      vshortChecked_eq, longWindowChecked_eq, sectorChecked_eq,
      thousandsChecked_eq, hpd, speedOf]

/-- Concrete device for the C7 witness. -/
def devW7 : DrbdDevice :=
  { rs_total := 5, rs_failed := 1, ov_left := 0, rs_last_mark := 3,
    rs_mark_time := fun _ => 0, rs_mark_left := fun _ => 4,
    rs_start := 0, rs_paused := 0, c_sync_rate := 2000, bm_resync_fo := 7,
    repl_state := ReplState.L_SYNC_TARGET, bm_total_weight := 4, bm_bits := 250 }

/-- C7 witness: the guarded estimator succeeds at a concrete device with
`proc_details = 1`, so every division site — the per-mille division, bar
and percentage display, all three windows, the finish time, every
thousands-grouping and the sector block — is exercised. -/
theorem syncer_no_div_witness :
    drbd_syncer_progress_checked devW7 7 1 =
      some (drbd_syncer_progress devW7 7 1) :=
  syncer_progress_no_div_by_zero devW7 7 1 (by decide)

/-- C2: the `RemainingExceedsTotal` diagnostic (`drbd_warn`) fires exactly
when the computed remaining work exceeds the total work; in that case the
reported per-mille is set to 0 (never negative — the output is a natural
number), and the computation still returns normally: the guarded per-mille
evaluation succeeds on every input. -/
theorem get_progress_warned_spec (d : DrbdDevice) :
    ((drbd_get_syncer_progress d).warned = true ↔
        d.rs_total < (drbd_get_syncer_progress d).bits_left) ∧
    ((drbd_get_syncer_progress d).warned = false ∨
        (drbd_get_syncer_progress d).per_mil_done = 0) ∧
    (perMilDoneChecked (drbd_get_syncer_progress d).bits_left d.rs_total).isSome
      = true := by
  unfold drbd_get_syncer_progress
  refine ⟨by simp, ?_, by simp [perMilDoneChecked_eq]⟩
  by_cases h : d.rs_total < bitsLeft d
  · right
    simp [perMilDone, h]
  · left
    simp [h]
